import Mathlib

/-!
Verification of the DeltaHacks search-and-generate coordinator.

This file gives a shallow embedding of the core of the repository:

* `compute_query_fingerprint` embeds `backend/app/main.py:compute_query_fingerprint`
  (query normalisation followed by SHA-256, truncated to 16 hex characters);
* `enqueue_generation_job` and `search_jobs` embed the search coordinator in
  `backend/app/main.py` (steps 2-7 of the `/jobs/search` handler);
* `process_job`, `update_job_status` and the single-job operation machine embed
  `services/generator/app/worker.py`.

Machine integers are modelled as `Nat` with explicit reduction modulo `2 ^ 32`
inside the SHA-256 core.  MongoDB documents are modelled as Lean structures,
collections as lists in collection order, and each Mongo query or update is
translated to the corresponding pure list operation.  Greenhouse ids are
modelled as natural numbers, matching the jobs collection which stores
`greenhouse_id` as an integer (string/int conversions in the handler are
modelled by `toString` at the response boundary).
-/

namespace DeltaHacks

/-! ## SHA-256 over `Nat`, word width 32 bits -/

def M32 : Nat := 4294967296

def add32 (a b : Nat) : Nat := (a + b) % M32

def rotr32 (n x : Nat) : Nat := ((x >>> n) ||| (x <<< (32 - n))) % M32

def bigSigma0 (x : Nat) : Nat := (rotr32 2 x) ^^^ (rotr32 13 x) ^^^ (rotr32 22 x)

def bigSigma1 (x : Nat) : Nat := (rotr32 6 x) ^^^ (rotr32 11 x) ^^^ (rotr32 25 x)

def smallSigma0 (x : Nat) : Nat := (rotr32 7 x) ^^^ (rotr32 18 x) ^^^ (x >>> 3)

def smallSigma1 (x : Nat) : Nat := (rotr32 17 x) ^^^ (rotr32 19 x) ^^^ (x >>> 10)

/-- The 64 round constants of SHA-256 (FIPS 180-4, section 4.2.2), written
in decimal. -/
def sha256K : List Nat :=
  [1116352408, 1899447441, 3049323471, 3921009573, 961987163,
   1508970993, 2453635748, 2870763221, 3624381080, 310598401,
   607225278, 1426881987, 1925078388, 2162078206, 2614888103,
   3248222580, 3835390401, 4022224774, 264347078, 604807628,
   770255983, 1249150122, 1555081692, 1996064986, 2554220882,
   2821834349, 2952996808, 3210313671, 3336571891, 3584528711,
   113926993, 338241895, 666307205, 773529912, 1294757372,
   1396182291, 1695183700, 1986661051, 2177026350, 2456956037,
   2730485921, 2820302411, 3259730800, 3345764771, 3516065817,
   3600352804, 4094571909, 275423344, 430227734, 506948616,
   659060556, 883997877, 958139571, 1322822218, 1537002063,
   1747873779, 1955562222, 2024104815, 2227730452, 2361852424,
   2428436474, 2756734187, 3204031479, 3329325298]

structure Hash8 where
  a : Nat
  b : Nat
  c : Nat
  d : Nat
  e : Nat
  f : Nat
  g : Nat
  h : Nat
deriving DecidableEq, Repr

/-- The initial hash state of SHA-256, in decimal. -/
def sha256H0 : Hash8 :=
  ⟨1779033703, 3144134277, 1013904242, 2773480762, 1359893119, 2600822924, 528734635, 1541459225⟩

def Hash8.toList (H : Hash8) : List Nat := [H.a, H.b, H.c, H.d, H.e, H.f, H.g, H.h]

/-- Canonical UTF-8 encoding of one code point, as a list of byte values. -/
def utf8EncodeChar (c : Char) : List Nat :=
  let n := c.toNat
  if n < 128 then [n]
  else if n < 2048 then [192 + n / 64, 128 + n % 64]
  else if n < 65536 then [224 + n / 4096, 128 + (n / 64) % 64, 128 + n % 64]
  else [240 + n / 262144, 128 + (n / 4096) % 64, 128 + (n / 64) % 64, 128 + n % 64]

def strBytes (s : String) : List Nat := s.data.flatMap utf8EncodeChar

def bytesBE (n v : Nat) : List Nat :=
  (List.range n).map (fun i => v / 256 ^ (n - 1 - i) % 256)

/-- SHA-256 padding: append 0x80, zero bytes to 56 mod 64, then the bit length. -/
def sha256Pad (bs : List Nat) : List Nat :=
  let L := bs.length
  bs ++ [128] ++ List.replicate ((119 - L % 64) % 64) 0 ++ bytesBE 8 (8 * L)

/-- Split a byte list into 64-byte chunks.  The accumulator holds the current
chunk, reversed; structural recursion so that the kernel can evaluate it. -/
def chunks64Aux : List Nat → List Nat → List (List Nat)
  | [], cur => if cur.isEmpty then [] else [cur.reverse]
  | b :: bs, cur =>
    if cur.length = 63 then (b :: cur).reverse :: chunks64Aux bs []
    else chunks64Aux bs (b :: cur)

def chunks64 (l : List Nat) : List (List Nat) := chunks64Aux l []

def word32OfBytes (b0 b1 b2 b3 : Nat) : Nat := ((b0 * 256 + b1) * 256 + b2) * 256 + b3

def chunkWords (chunk : List Nat) : List Nat :=
  (List.range 16).map (fun i =>
    word32OfBytes (chunk.getD (4 * i) 0) (chunk.getD (4 * i + 1) 0)
      (chunk.getD (4 * i + 2) 0) (chunk.getD (4 * i + 3) 0))

def extendSchedule (w : List Nat) : List Nat :=
  (List.range 48).foldl
    (fun w _ =>
      let n := w.length
      let t := add32
        (add32 (smallSigma1 (w.getD (n - 2) 0)) (w.getD (n - 7) 0))
        (add32 (smallSigma0 (w.getD (n - 15) 0)) (w.getD (n - 16) 0))
      w ++ [t])
    w

def sha256Round (st : Hash8) (kw : Nat × Nat) : Hash8 :=
  let ch := (st.e &&& st.f) ^^^ ((st.e ^^^ (M32 - 1)) &&& st.g)
  let maj := (st.a &&& st.b) ^^^ (st.a &&& st.c) ^^^ (st.b &&& st.c)
  let t1 := add32 (add32 (add32 st.h (bigSigma1 st.e)) (add32 ch kw.1)) kw.2
  let t2 := add32 (bigSigma0 st.a) maj
  ⟨add32 t1 t2, st.a, st.b, st.c, add32 st.d t1, st.e, st.f, st.g⟩

def sha256Compress (H : Hash8) (chunk : List Nat) : Hash8 :=
  let w := extendSchedule (chunkWords chunk)
  let st := (sha256K.zip w).foldl sha256Round H
  ⟨add32 H.a st.a, add32 H.b st.b, add32 H.c st.c, add32 H.d st.d,
   add32 H.e st.e, add32 H.f st.f, add32 H.g st.g, add32 H.h st.h⟩

def sha256Hash (bs : List Nat) : Hash8 :=
  (chunks64 (sha256Pad bs)).foldl sha256Compress sha256H0

def hexDigitChar (n : Nat) : Char :=
  if n < 10 then Char.ofNat (48 + n) else Char.ofNat (87 + n)

def wordHexChars (w : Nat) : List Char :=
  (List.range 8).map (fun i => hexDigitChar (w / 16 ^ (7 - i) % 16))

/-- The full 64-character hex digest of SHA-256, as a character list. -/
def sha256HexChars (bs : List Nat) : List Char :=
  (sha256Hash bs).toList.flatMap wordHexChars

/-! ## Query fingerprint (`backend/app/main.py:compute_query_fingerprint`)

The Python source, translated step by step:
```
normalized = query.lower().strip()
normalized = ''.join(c for c in normalized if c.isalnum() or c.isspace())
words = sorted(normalized.split())
canonical = ' '.join(words)
return hashlib.sha256(canonical.encode()).hexdigest()[:16]
```
`str.lower` maps `Char.toLower` over the code points, `str.strip` drops
whitespace from both ends, `str.split()` splits on whitespace runs and drops
empty tokens, and `sorted` is an ascending stable sort (lexicographic on code
points for strings).
-/

/-- `str.split()` with no separator: split on whitespace runs, no empty tokens.
The accumulator holds the current word, reversed. -/
def splitWsAux : List Char → List Char → List String
  | [], acc => if acc.isEmpty then [] else [String.mk acc.reverse]
  | c :: rest, acc =>
    if c.isWhitespace then
      if acc.isEmpty then splitWsAux rest []
      else String.mk acc.reverse :: splitWsAux rest []
    else splitWsAux rest (c :: acc)

def splitWs (cs : List Char) : List String := splitWsAux cs []

/-- `str.strip()`: drop whitespace from both ends. -/
def stripChars (cs : List Char) : List Char :=
  ((cs.dropWhile Char.isWhitespace).reverse.dropWhile Char.isWhitespace).reverse

/-- Lexicographic `≤` on code-point lists: exactly Python's string comparison
(compare code points position by position, a prefix is smaller). -/
def lexLeB : List Char → List Char → Bool
  | [], _ => true
  | _ :: _, [] => false
  | a :: as, b :: bs => if a < b then true else if b < a then false else lexLeB as bs

def strLe (a b : String) : Prop := lexLeB a.data b.data = true

instance (a b : String) : Decidable (strLe a b) := by
  unfold strLe
  infer_instance

/-- Python `sorted` is an ascending stable sort; over a total antisymmetric
order any two sorting algorithms return the same list
(`List.eq_of_perm_of_sorted`), so we embed it with the structurally recursive
insertion sort, ordered by code-point comparison as Python compares strings. -/
def sortStrings (ws : List String) : List String :=
  List.insertionSort strLe ws

/-- The generator-expression predicate: keep a code point iff it is
alphanumeric or whitespace. -/
def keepChar (c : Char) : Bool := c.isAlphanum || c.isWhitespace

/-- The canonical form of a query: lowercase, strip, remove code points that
are neither alphanumeric nor whitespace, split, sort, join with spaces. -/
def canonical_query (q : String) : String :=
  let lowered := q.data.map Char.toLower
  let stripped := stripChars lowered
  let filtered := stripped.filter keepChar
  let words := sortStrings (splitWs filtered)
  String.intercalate " " words

def fingerprintOfCanonical (canonical : String) : String :=
  String.mk ((sha256HexChars (strBytes canonical)).take 16)

/-- `compute_query_fingerprint`: canonicalise, SHA-256, first 16 hex chars. -/
def compute_query_fingerprint (q : String) : String :=
  fingerprintOfCanonical (canonical_query q)

/-- The multiset of words the normalisation extracts from a query, before
sorting.  Stripping does not affect it (proved below), so it is defined
without the strip step. -/
def queryTokens (q : String) : List String :=
  splitWs ((q.data.map Char.toLower).filter keepChar)

/-! ## Search coordinator (`backend/app/main.py:search_jobs`)

The handler is embedded as a pure function.  Inputs that the handler obtains
from external collaborators are passed as parameters:

* `seen` — the user's seen greenhouse ids (step 2; the jobs collection stores
  `greenhouse_id` as an int, so ids are `Nat` here);
* `primary` — the rows returned by the step-3 vector search (or its non-vector
  fallback, which flows into the same downstream code);
* `retry` — the rows the re-run of the vector search without the seen filter
  would return (used only on the empty-candidates recovery path);
* `ready` — the `video_id`s of the videos collection with `status = "ready"`,
  in collection order (queried with `$in` in step 4 and with `limit` in
  step 5.5);
* `qstore` — the generation_jobs collection, threaded through the enqueues;
* `uuids`/`templates` — the `uuid.uuid4()` and `random.choice(VIDEO_TEMPLATES)`
  draws, indexed by enqueue attempt.

Document timestamps (`created_at` …) are omitted: no claim mentions them. -/

structure Config where
  SIMILARITY_THRESHOLD : ℚ
  TARGET_COUNT : Nat
  MAX_GENERATE_PER_REQUEST : Nat
  MAX_USER_CONCURRENT_JOBS : Nat

def defaultConfig : Config := ⟨mkRat 3 4, 5, 5, 2⟩

/-- One vector-search result row (projection of step 3). -/
structure Cand where
  greenhouse_id : Nat
  score : ℚ
deriving DecidableEq, Repr

structure GenJobDoc where
  job_id : String
  greenhouse_id : Nat
  template_id : String
  query_fingerprint : String
  user_id : String
  status : String
  output_video_id : Nat
  retry_count : Nat
deriving DecidableEq, Repr

/-- `enqueue_generation_job` (main.py lines 846-907): skip when a live job with
the same `(query_fingerprint, greenhouse_id)` exists, skip when the user's
count of queued/running jobs is at the limit, otherwise insert a fresh
`queued` document and return its uuid. -/
def enqueue_generation_job (cfg : Config) (store : List GenJobDoc) (newUuid : String)
    (greenhouse_id : Nat) (query_fingerprint user_id template_id : String) :
    Option String × List GenJobDoc :=
  if store.any (fun d =>
      decide (d.query_fingerprint = query_fingerprint ∧ d.greenhouse_id = greenhouse_id ∧
        d.status ≠ "failed")) then
    (none, store)
  else if cfg.MAX_USER_CONCURRENT_JOBS ≤
      (store.filter (fun d =>
        decide (d.user_id = user_id ∧ (d.status = "queued" ∨ d.status = "running")))).length then
    (none, store)
  else
    (some newUuid,
      store ++ [⟨newUuid, greenhouse_id, template_id, query_fingerprint, user_id, "queued",
        greenhouse_id, 0⟩])

structure SearchJobsResponse where
  user_id : String
  greenhouse_ids : List String
  count : Nat
  generation_triggered : Bool
  generation_job_ids : List String
deriving DecidableEq, Repr

/-- The response plus the request's observable effects on the stores. -/
structure SearchEffects where
  response : SearchJobsResponse
  viewResets : Nat
  enqueueAttempts : List Nat
  queue : List GenJobDoc
deriving Repr

def candidateHasVideo (ready : List Nat) (j : Cand) : Bool :=
  ready.contains j.greenhouse_id

/-- Step 5: the partition loop appends each candidate to exactly one of three
lists, preserving order, which is the same as three order-preserving filters. -/
def jobs_with_videos_above_threshold (cfg : Config) (ready : List Nat) (cands : List Cand) :
    List Cand :=
  cands.filter (fun j => candidateHasVideo ready j && decide (cfg.SIMILARITY_THRESHOLD ≤ j.score))

def jobs_with_videos_below_threshold (cfg : Config) (ready : List Nat) (cands : List Cand) :
    List Cand :=
  cands.filter (fun j =>
    candidateHasVideo ready j && ! decide (cfg.SIMILARITY_THRESHOLD ≤ j.score))

def jobs_without_videos_above_threshold (cfg : Config) (ready : List Nat) (cands : List Cand) :
    List Cand :=
  cands.filter (fun j =>
    ! candidateHasVideo ready j && decide (cfg.SIMILARITY_THRESHOLD ≤ j.score))

def available_with_videos (cfg : Config) (ready : List Nat) (cands : List Cand) : List Cand :=
  jobs_with_videos_above_threshold cfg ready cands ++
    jobs_with_videos_below_threshold cfg ready cands

/-- Step 6 generation set: `C[:min(deficit, MAX_GENERATE_PER_REQUEST)]` with
`deficit = TARGET_COUNT - len(A)` (computed on the generation branch only). -/
def jobs_to_generate (cfg : Config) (ready : List Nat) (cands : List Cand) : List Cand :=
  let deficit := cfg.TARGET_COUNT - (jobs_with_videos_above_threshold cfg ready cands).length
  (jobs_without_videos_above_threshold cfg ready cands).take
    (min deficit cfg.MAX_GENERATE_PER_REQUEST)

/-- The enqueue loop of step 6: each iteration draws a template, calls
`enqueue_generation_job`, and collects the uuid when it succeeded. -/
def runEnqueues (cfg : Config) (query_fingerprint user_id : String)
    (uuids templates : Nat → String) :
    List Cand → List GenJobDoc → Nat → List String × List GenJobDoc
  | [], store, _ => ([], store)
  | j :: rest, store, i =>
    match enqueue_generation_job cfg store (uuids i) j.greenhouse_id query_fingerprint
        user_id (templates i) with
    | (some jid, store2) =>
      let r := runEnqueues cfg query_fingerprint user_id uuids templates rest store2 (i + 1)
      (jid :: r.1, r.2)
    | (none, store2) =>
      runEnqueues cfg query_fingerprint user_id uuids templates rest store2 (i + 1)

/-- Steps 4-7 of the handler, entered with the final candidate list `cands`
and the number of view resets performed so far. -/
def search_steps4to7 (cfg : Config) (query_fingerprint user_id : String) (seen : List Nat)
    (cands : List Cand) (ready : List Nat) (qstore : List GenJobDoc)
    (uuids templates : Nat → String) (resets : Nat) : SearchEffects :=
  let A := jobs_with_videos_above_threshold cfg ready cands
  let available := available_with_videos cfg ready cands
  if available.isEmpty ∧ ¬ seen.isEmpty then
    -- Step 5.5: reset views, return up to TARGET_COUNT arbitrary ready videos.
    let all_available := ready.take cfg.TARGET_COUNT
    let results := (all_available.take cfg.TARGET_COUNT).map toString
    ⟨⟨user_id, results, results.length, false, []⟩, resets + 1, [], qstore⟩
  else if cfg.TARGET_COUNT ≤ A.length then
    let results := (A.take cfg.TARGET_COUNT).map (fun j => toString j.greenhouse_id)
    ⟨⟨user_id, results, results.length, false, []⟩, resets, [], qstore⟩
  else
    let results :=
      (available.take cfg.TARGET_COUNT).map (fun j => toString j.greenhouse_id)
    let toGen := jobs_to_generate cfg ready cands
    let enq := runEnqueues cfg query_fingerprint user_id uuids templates toGen qstore 0
    ⟨⟨user_id, results, results.length, !toGen.isEmpty, enq.1⟩, resets,
      toGen.map (fun j => j.greenhouse_id), enq.2⟩

/-- The `/jobs/search` handler after a successful embedding call. -/
def search_jobs (cfg : Config) (text_prompt user_id : String) (seen : List Nat)
    (primary retry : List Cand) (ready : List Nat) (qstore : List GenJobDoc)
    (uuids templates : Nat → String) : SearchEffects :=
  let fp := compute_query_fingerprint text_prompt
  if primary.isEmpty then
    if ¬ seen.isEmpty then
      -- Empty-candidates recovery: delete the user's views, re-run the search
      -- without the seen filter (the in-memory seen lists are not cleared).
      if retry.isEmpty then ⟨⟨user_id, [], 0, false, []⟩, 1, [], qstore⟩
      else search_steps4to7 cfg fp user_id seen retry ready qstore uuids templates 1
    else ⟨⟨user_id, [], 0, false, []⟩, 0, [], qstore⟩
  else search_steps4to7 cfg fp user_id seen primary ready qstore uuids templates 0

/-! ## Generator worker (`services/generator/app/worker.py`) -/

def MAX_RETRIES : Nat := 3

/-- A jobs-collection document as read by the worker in step 1. -/
structure CatalogDoc where
  description_text : Option String
  description : Option String
deriving DecidableEq, Repr

/-- `job_doc.get("description_text") or job_doc.get("description", "")`:
Python `or` falls through on falsy values (absent field or empty string). -/
def catalogDescription (doc : CatalogDoc) : String :=
  let a := doc.description_text.getD ""
  if a ≠ "" then a else doc.description.getD ""

/-- The claimed generation-job document, as `process_job` reads it. -/
structure ClaimedJob where
  job_id : String
  greenhouse_id : Nat
  output_video_id : Nat
  template_id : String
  retry_count : Nat
deriving DecidableEq, Repr

structure VideoDoc where
  video_id : Nat
  s3_key : String
  template_id : String
  status : String
  generation_job_id : String
deriving DecidableEq, Repr

def upload_s3_key (video_id : Nat) : String :=
  "hls/" ++ toString video_id ++ "/master.m3u8"

/-- `create_video_document`: an `insert_one` into a collection carrying a
unique index on `video_id` (created by `startup_db_client`).  A pre-existing
row with the same `video_id` makes `insert_one` raise `DuplicateKeyError`,
modelled as `none`; the exception is not caught inside this function. -/
def create_video_document (videos : List VideoDoc) (job : ClaimedJob) (s3_key : String) :
    Option (List VideoDoc) :=
  if videos.any (fun v => decide (v.video_id = job.output_video_id)) then none
  else some (videos ++ [⟨job.output_video_id, s3_key, job.template_id, "ready", job.job_id⟩])

/-- Outcome of one `process_job` call: the final status written for the job,
the job's retry count afterwards, the error recorded by this run, the videos
collection afterwards, and the boolean the function returns. -/
structure WorkerOutcome where
  status : String
  retry_count : Nat
  error : Option String
  videos : List VideoDoc
  success : Bool
deriving DecidableEq, Repr

/-- The `except` branch of `process_job` (lines 330-357): retry while the
claimed document's `retry_count` is below `MAX_RETRIES`, else mark failed. -/
def process_job_failure (job : ClaimedJob) (error_msg : String) (videos : List VideoDoc) :
    WorkerOutcome :=
  if job.retry_count < MAX_RETRIES then
    ⟨"queued", job.retry_count + 1, some error_msg, videos, false⟩
  else
    ⟨"failed", job.retry_count, some error_msg, videos, false⟩

/-- Results of the worker's external calls during one `process_job` run. -/
structure WorkerEnv where
  jobDoc : Option CatalogDoc
  renderOk : Bool
  uploadOk : Bool
deriving DecidableEq, Repr

/-- `process_job` (lines 263-357).  Steps: look up the catalog document,
validate the description, render, upload, insert the `Video` row, mark ready.
Every raised exception lands in `process_job_failure`. -/
def process_job (job : ClaimedJob) (env : WorkerEnv) (videos : List VideoDoc) : WorkerOutcome :=
  match env.jobDoc with
  | none =>
    process_job_failure job
      ("Job " ++ toString job.greenhouse_id ++ " not found in database") videos
  | some doc =>
    let job_description := catalogDescription doc
    if job_description = "" ∨ job_description.length < 50 then
      process_job_failure job
        ("Job description too short (" ++ toString job_description.length ++ " chars)") videos
    else if ¬ env.renderOk then
      process_job_failure job "Video generation failed" videos
    else if ¬ env.uploadOk then
      process_job_failure job "Upload failed" videos
    else
      match create_video_document videos job (upload_s3_key job.output_video_id) with
      | none => process_job_failure job "E11000 duplicate key error" videos
      | some videos2 => ⟨"ready", job.retry_count, none, videos2, true⟩

/-! ### `update_job_status` over the generation_jobs collection -/

structure QueueRec where
  job_id : String
  status : String
  error : Option String
  updated_at : Nat
  completed_at : Option Nat
deriving DecidableEq, Repr

/-- The `$set` document built by `update_job_status` (lines 125-143):
always sets `status` and `updated_at`, sets `completed_at` for terminal
statuses, and sets `error` only when one is given. -/
def applyStatusSet (now : Nat) (status : String) (error : Option String) (r : QueueRec) :
    QueueRec :=
  { r with
    status := status
    updated_at := now
    completed_at := if status = "ready" ∨ status = "failed" then some now else r.completed_at
    error := match error with | some e => some e | none => r.error }

/-- `update_job_status`: `update_one({"job_id": job_id}, update)` — the filter
matches on `job_id` alone and the first matching document is rewritten. -/
def update_job_status (store : List QueueRec) (job_id status : String) (error : Option String)
    (now : Nat) : List QueueRec :=
  match store with
  | [] => []
  | r :: rest =>
    if r.job_id = job_id then applyStatusSet now status error r :: rest
    else r :: update_job_status rest job_id status error now

def findJob (store : List QueueRec) (job_id : String) : Option QueueRec :=
  store.find? (fun r => decide (r.job_id = job_id))

/-! ### Single-job lifecycle machine

The operations that touch one generation job's `(status, retry_count)` pair,
as the claims quantify over sequences of them:

* `claimOp` — `claim_job`: `find_one_and_update` filtered on
  `status = "queued"` and `created_at` at least 2 s old (the age test is the
  `mature` flag), sets `status = "running"`;
* `staleReset` — `reset_stale_jobs`: filtered on `status = "running"` and
  `started_at` older than the timeout (the `stale` flag), sets
  `status = "queued"` and `$inc`s `retry_count`;
* `failHandle` — the worker failure handler: its `update_one` filter names
  only `job_id`, so it applies from any current status, branching on
  `retry_count` against `MAX_RETRIES`;
* `operatorRetry` — `retry_generation_job` (main.py lines 1397-1438):
  filtered on `status = "failed"`, sets `status = "queued"` and `$inc`s
  `retry_count`. -/

inductive QueueOp where
  | claimOp (mature : Bool)
  | staleReset (stale : Bool)
  | failHandle
  | operatorRetry
deriving DecidableEq, Repr

structure JobState where
  status : String
  retry_count : Nat
deriving DecidableEq, Repr

/-- The document `enqueue_generation_job` inserts: `queued`, `retry_count` 0. -/
def enqueuedState : JobState := ⟨"queued", 0⟩

def queueStep (s : JobState) : QueueOp → JobState
  | .claimOp mature =>
    if mature ∧ s.status = "queued" then ⟨"running", s.retry_count⟩ else s
  | .staleReset stale =>
    if stale ∧ s.status = "running" then ⟨"queued", s.retry_count + 1⟩ else s
  | .failHandle =>
    if s.retry_count < MAX_RETRIES then ⟨"queued", s.retry_count + 1⟩
    else ⟨"failed", s.retry_count⟩
  | .operatorRetry =>
    if s.status = "failed" then ⟨"queued", s.retry_count + 1⟩ else s

def runOps (ops : List QueueOp) : JobState := ops.foldl queueStep enqueuedState

/-! ### Concrete stores and claim formalisations used below -/

/-- A generation_jobs collection holding two running jobs of user "u1":
the user is at `MAX_USER_CONCURRENT_JOBS = 2`, so every enqueue is skipped. -/
def c1Queue : List GenJobDoc :=
  [⟨"uuid-a", 98, "family_guy", "fp0", "u1", "running", 98, 0⟩,
   ⟨"uuid-b", 99, "spongebob", "fp0", "u1", "running", 99, 0⟩]

/-- A catalog description comfortably over the 50-character minimum. -/
def sampleDescription : String :=
  "Senior Backend Engineer building distributed video generation systems with Python"

/-- Formalisation of C3 as stated: the status-update operation would be a
compare-and-set, a no-op whenever the record's current status differs from the
caller's expected source status. -/
def transition_is_compare_and_set : Prop :=
  ∀ (store : List QueueRec) (job_id expected_from target : String) (error : Option String)
    (now : Nat) (r : QueueRec),
    findJob store job_id = some r → r.status ≠ expected_from →
    update_job_status store job_id target error now = store

/-! ## Helper lemmas about the search coordinator -/

theorem steps4to7_count_eq (cfg : Config) (fp uid : String) (seen : List Nat)
    (cands : List Cand) (ready : List Nat) (qstore : List GenJobDoc)
    (uuids templates : Nat → String) (resets : Nat) :
    (search_steps4to7 cfg fp uid seen cands ready qstore uuids templates resets).response.count =
      (search_steps4to7 cfg fp uid seen cands ready qstore uuids
        templates resets).response.greenhouse_ids.length := by
  unfold search_steps4to7
  dsimp only
  split
  · rfl
  · split <;> rfl

theorem steps4to7_length_le (cfg : Config) (fp uid : String) (seen : List Nat)
    (cands : List Cand) (ready : List Nat) (qstore : List GenJobDoc)
    (uuids templates : Nat → String) (resets : Nat) :
    (search_steps4to7 cfg fp uid seen cands ready qstore uuids
      templates resets).response.greenhouse_ids.length ≤ cfg.TARGET_COUNT := by
  unfold search_steps4to7
  dsimp only
  split
  · simp [List.length_take]
  · split <;> simp [List.length_take]

theorem steps4to7_mem_ready (cfg : Config) (fp uid : String) (seen : List Nat)
    (cands : List Cand) (ready : List Nat) (qstore : List GenJobDoc)
    (uuids templates : Nat → String) (resets : Nat) (s : String)
    (hs : s ∈ (search_steps4to7 cfg fp uid seen cands ready qstore uuids
      templates resets).response.greenhouse_ids) :
    ∃ v, v ∈ ready ∧ toString v = s := by
  unfold search_steps4to7 at hs
  dsimp only at hs
  split at hs
  · simp only [List.mem_map] at hs
    obtain ⟨v, hv, rfl⟩ := hs
    exact ⟨v, List.take_subset _ _ (List.take_subset _ _ hv), rfl⟩
  · split at hs
    · simp only [List.mem_map] at hs
      obtain ⟨j, hj, rfl⟩ := hs
      have hj2 := List.take_subset _ _ hj
      have hf := (List.mem_filter.mp hj2).2
      simp only [Bool.and_eq_true, candidateHasVideo] at hf
      exact ⟨j.greenhouse_id, List.elem_iff.mp hf.1, rfl⟩
    · simp only [List.mem_map] at hs
      obtain ⟨j, hj, rfl⟩ := hs
      have hj2 := List.take_subset _ _ hj
      unfold available_with_videos at hj2
      refine ⟨j.greenhouse_id, ?_, rfl⟩
      rcases List.mem_append.mp hj2 with hA | hB
      · have hf := (List.mem_filter.mp hA).2
        simp only [Bool.and_eq_true, candidateHasVideo] at hf
        exact List.elem_iff.mp hf.1
      · have hf := (List.mem_filter.mp hB).2
        simp only [Bool.and_eq_true, candidateHasVideo] at hf
        exact List.elem_iff.mp hf.1

theorem steps4to7_triggered_iff_attempts (cfg : Config) (fp uid : String) (seen : List Nat)
    (cands : List Cand) (ready : List Nat) (qstore : List GenJobDoc)
    (uuids templates : Nat → String) (resets : Nat) :
    (search_steps4to7 cfg fp uid seen cands ready qstore uuids
        templates resets).response.generation_triggered = true ↔
      (search_steps4to7 cfg fp uid seen cands ready qstore uuids
        templates resets).enqueueAttempts ≠ [] := by
  unfold search_steps4to7
  dsimp only
  split
  · simp
  · split
    · simp
    · simp [List.isEmpty_iff, List.map_eq_nil_iff]

/-! ## Claim theorems -/

/-- C10: on every return path of `search_jobs` the `count` field of the
response equals the length of the returned `greenhouse_ids` list. -/
theorem c10_count_equals_length (cfg : Config) (tp uid : String) (seen : List Nat)
    (primary retry : List Cand) (ready : List Nat) (qstore : List GenJobDoc)
    (uuids templates : Nat → String) :
    (search_jobs cfg tp uid seen primary retry ready qstore uuids
        templates).response.count =
      (search_jobs cfg tp uid seen primary retry ready qstore uuids
        templates).response.greenhouse_ids.length := by
  unfold search_jobs
  dsimp only
  split
  · split
    · split
      · rfl
      · apply steps4to7_count_eq
    · rfl
  · apply steps4to7_count_eq

/-- C7: every search response returns at most `TARGET_COUNT` job ids, and every
returned id is the string form of a `video_id` that the ready-videos catalog
query saw with status "ready" — on the normal path, the available-empty
recovery path, and the empty-result path alike. -/
theorem c7_result_ready_and_bounded (cfg : Config) (tp uid : String) (seen : List Nat)
    (primary retry : List Cand) (ready : List Nat) (qstore : List GenJobDoc)
    (uuids templates : Nat → String) :
    (search_jobs cfg tp uid seen primary retry ready qstore uuids
        templates).response.greenhouse_ids.length ≤ cfg.TARGET_COUNT ∧
      ∀ s ∈ (search_jobs cfg tp uid seen primary retry ready qstore uuids
        templates).response.greenhouse_ids, ∃ v, v ∈ ready ∧ toString v = s := by
  unfold search_jobs
  dsimp only
  split
  · split
    · split
      · exact ⟨Nat.zero_le _, by simp⟩
      · exact ⟨steps4to7_length_le cfg _ uid seen retry ready qstore uuids templates 1,
          steps4to7_mem_ready cfg _ uid seen retry ready qstore uuids templates 1⟩
    · exact ⟨Nat.zero_le _, by simp⟩
  · exact ⟨steps4to7_length_le cfg _ uid seen primary ready qstore uuids templates 0,
      steps4to7_mem_ready cfg _ uid seen primary ready qstore uuids templates 0⟩

theorem c7_witness :
    ∃ v, v ∈ [3] ∧ toString v = "3" :=
  (c7_result_ready_and_bounded defaultConfig "x" "u1" [] [⟨3, mkRat 9 10⟩] [] [3] []
    (fun i => "uuid-" ++ toString i) (fun _ => "spongebob")).2 "3" (by decide)

/-- C8: on the normal path the returned list is `(A ++ B)[:TARGET_COUNT]`;
with `|A| ≥ TARGET_COUNT` nothing is enqueued and `generation_triggered` is
false; otherwise the enqueue attempts are exactly the first
`min(TARGET_COUNT - |A|, MAX_GENERATE_PER_REQUEST)` elements of `C`. -/
theorem c8_normal_path (cfg : Config) (tp uid : String) (seen : List Nat)
    (primary retry : List Cand) (ready : List Nat) (qstore : List GenJobDoc)
    (uuids templates : Nat → String)
    (hprimary : primary ≠ [])
    (havail : ¬ ((available_with_videos cfg ready primary).isEmpty ∧ ¬ seen.isEmpty)) :
    (search_jobs cfg tp uid seen primary retry ready qstore uuids
        templates).response.greenhouse_ids =
      ((jobs_with_videos_above_threshold cfg ready primary ++
          jobs_with_videos_below_threshold cfg ready primary).take cfg.TARGET_COUNT).map
        (fun j => toString j.greenhouse_id) ∧
    (cfg.TARGET_COUNT ≤ (jobs_with_videos_above_threshold cfg ready primary).length →
      (search_jobs cfg tp uid seen primary retry ready qstore uuids
          templates).response.generation_triggered = false ∧
      (search_jobs cfg tp uid seen primary retry ready qstore uuids
          templates).enqueueAttempts = [] ∧
      (search_jobs cfg tp uid seen primary retry ready qstore uuids templates).queue = qstore) ∧
    ((jobs_with_videos_above_threshold cfg ready primary).length < cfg.TARGET_COUNT →
      (search_jobs cfg tp uid seen primary retry ready qstore uuids
          templates).enqueueAttempts =
        ((jobs_without_videos_above_threshold cfg ready primary).take
          (min (cfg.TARGET_COUNT - (jobs_with_videos_above_threshold cfg ready primary).length)
            cfg.MAX_GENERATE_PER_REQUEST)).map (fun j => j.greenhouse_id)) := by
  unfold search_jobs
  rw [if_neg (by simpa [List.isEmpty_iff] using hprimary)]
  unfold search_steps4to7
  dsimp only
  rw [if_neg havail]
  by_cases hA : cfg.TARGET_COUNT ≤ (jobs_with_videos_above_threshold cfg ready primary).length
  · rw [if_pos hA]
    refine ⟨?_, fun _ => ⟨rfl, rfl, rfl⟩, fun hlt => absurd hA (by omega)⟩
    dsimp only
    rw [List.take_append_of_le_length hA]
  · rw [if_neg hA]
    exact ⟨rfl, fun hle => absurd hle hA, fun _ => rfl⟩

theorem c8_witness :
    ¬ (([⟨3, mkRat 9 10⟩] : List Cand) = []) ∧
    (search_jobs defaultConfig "x" "u1" [] [⟨3, mkRat 9 10⟩] [] [3] []
        (fun i => "uuid-" ++ toString i) (fun _ => "spongebob")).response.greenhouse_ids =
      ((jobs_with_videos_above_threshold defaultConfig [3] [⟨3, mkRat 9 10⟩] ++
          jobs_with_videos_below_threshold defaultConfig [3] [⟨3, mkRat 9 10⟩]).take
        defaultConfig.TARGET_COUNT).map (fun j => toString j.greenhouse_id) :=
  ⟨by decide,
    (c8_normal_path defaultConfig "x" "u1" [] [⟨3, mkRat 9 10⟩] [] [3] []
      (fun i => "uuid-" ++ toString i) (fun _ => "spongebob") (by decide) (by decide)).1⟩

set_option maxRecDepth 1000000 in
/-- C1 counterexample: a request whose every enqueue attempt is skipped
(user at the concurrency limit) still answers `generation_triggered = true`
with an empty `generation_job_ids` — the flag is set before the enqueue calls
and never reconsidered, refuting `generation_triggered ⇒ |job_ids| > 0`. -/
theorem c1_counterexample :
    (search_jobs defaultConfig "x" "u1" [] [⟨1, mkRat 9 10⟩] [] [] c1Queue
        (fun i => "uuid-" ++ toString i)
        (fun _ => "political")).response.generation_triggered = true ∧
    (search_jobs defaultConfig "x" "u1" [] [⟨1, mkRat 9 10⟩] [] [] c1Queue
        (fun i => "uuid-" ++ toString i)
        (fun _ => "political")).response.generation_job_ids = [] := by
  constructor
  · decide
  · decide

/-- C1 amended: `generation_triggered` records that the request attempted at
least one enqueue (`jobs_to_generate` non-empty); it does not assert that any
enqueue succeeded, so `generation_job_ids` may be empty alongside
`generation_triggered = true`. -/
theorem c1_triggered_iff_attempted (cfg : Config) (tp uid : String) (seen : List Nat)
    (primary retry : List Cand) (ready : List Nat) (qstore : List GenJobDoc)
    (uuids templates : Nat → String) :
    (search_jobs cfg tp uid seen primary retry ready qstore uuids
        templates).response.generation_triggered = true ↔
      (search_jobs cfg tp uid seen primary retry ready qstore uuids
        templates).enqueueAttempts ≠ [] := by
  unfold search_jobs
  dsimp only
  split
  · split
    · split
      · simp
      · apply steps4to7_triggered_iff_attempts
    · simp
  · apply steps4to7_triggered_iff_attempts

/-- C6 counterexample: empty candidate list with a non-empty seen set, where
the retried search returns a candidate without a ready video.  The stale
in-memory seen list is still non-empty at the availability check, so the
user's views are deleted twice in one request, refuting "exactly once". -/
theorem c6_counterexample :
    (([1] : List Nat) ≠ []) ∧
    (search_jobs defaultConfig "q" "u1" [1] [] [⟨2, mkRat 1 2⟩] [] []
        (fun i => "uuid-" ++ toString i) (fun _ => "political")).viewResets = 2 := by
  constructor
  · decide
  · decide

theorem search_jobs_empty_primary (cfg : Config) (tp uid : String) (seen : List Nat)
    (retry : List Cand) (ready : List Nat) (qstore : List GenJobDoc)
    (uuids templates : Nat → String)
    (hseen : seen.isEmpty = false) (hr : retry.isEmpty = false) :
    search_jobs cfg tp uid seen [] retry ready qstore uuids templates =
      search_steps4to7 cfg (compute_query_fingerprint tp) uid seen retry ready qstore
        uuids templates 1 := by
  unfold search_jobs
  simp [hseen, hr]

theorem steps4to7_viewResets (cfg : Config) (fp uid : String) (seen : List Nat)
    (cands : List Cand) (ready : List Nat) (qstore : List GenJobDoc)
    (uuids templates : Nat → String) (resets : Nat) :
    (search_steps4to7 cfg fp uid seen cands ready qstore uuids templates resets).viewResets =
      if (available_with_videos cfg ready cands).isEmpty ∧ ¬ seen.isEmpty then resets + 1
      else resets := by
  unfold search_steps4to7
  dsimp only
  split
  · rfl
  · split <;> rfl

/-- C6 amended: with empty candidates and a non-empty seen set the view reset
happens once, and a second time exactly when the retried search is non-empty
and none of its candidates has a ready video, so one or two times. -/
theorem c6_reset_count (cfg : Config) (tp uid : String) (seen : List Nat)
    (retry : List Cand) (ready : List Nat) (qstore : List GenJobDoc)
    (uuids templates : Nat → String)
    (hseen : seen ≠ []) :
    (search_jobs cfg tp uid seen [] retry ready qstore uuids templates).viewResets =
      if retry ≠ [] ∧ available_with_videos cfg ready retry = [] then 2 else 1 := by
  have hseen' : seen.isEmpty = false := by simpa [List.isEmpty_iff] using hseen
  by_cases hr : retry = []
  · subst hr
    simp [search_jobs, hseen']
  · have hr' : retry.isEmpty = false := by simpa [List.isEmpty_iff] using hr
    rw [search_jobs_empty_primary cfg tp uid seen retry ready qstore uuids templates
      hseen' hr', steps4to7_viewResets]
    by_cases hav : available_with_videos cfg ready retry = []
    · rw [if_pos ⟨by simp [List.isEmpty_iff, hav], by simp [List.isEmpty_iff, hseen]⟩,
        if_pos ⟨hr, hav⟩]
    · rw [if_neg (fun hc => hav (List.isEmpty_iff.mp hc.1)),
        if_neg (fun hc => hav hc.2)]

theorem c6_reset_count_witness :
    (search_jobs defaultConfig "q" "u1" [1] [] [⟨2, mkRat 1 2⟩] [] []
        (fun i => "uuid-" ++ toString i) (fun _ => "political")).viewResets =
      if (([⟨2, mkRat 1 2⟩] : List Cand) ≠ [] ∧
          available_with_videos defaultConfig [] [⟨2, mkRat 1 2⟩] = []) then 2 else 1 :=
  c6_reset_count defaultConfig "q" "u1" [1] [⟨2, mkRat 1 2⟩] [] []
    (fun i => "uuid-" ++ toString i) (fun _ => "political") (by decide)

/-- C2 (code-bug evaluation): re-processing a job whose output `Video` row
already exists is not treated as success.  `create_video_document` calls
`insert_one` without catching `DuplicateKeyError` (the videos collection has a
unique index on `video_id`), so the generic failure handler runs: the job is
re-queued with `retry_count + 1` — and marked failed once the budget is
exhausted — instead of transitioning running→ready. -/
theorem c2_duplicate_video_fails_job :
    (process_job ⟨"gen-1", 7, 7, "spongebob", 0⟩ ⟨some ⟨some sampleDescription, none⟩, true, true⟩
        [⟨7, upload_s3_key 7, "spongebob", "ready", "gen-0"⟩]).status = "queued" ∧
    (process_job ⟨"gen-1", 7, 7, "spongebob", 0⟩ ⟨some ⟨some sampleDescription, none⟩, true, true⟩
        [⟨7, upload_s3_key 7, "spongebob", "ready", "gen-0"⟩]).retry_count = 1 ∧
    ¬ (process_job ⟨"gen-1", 7, 7, "spongebob", 0⟩ ⟨some ⟨some sampleDescription, none⟩, true, true⟩
        [⟨7, upload_s3_key 7, "spongebob", "ready", "gen-0"⟩]).status = "ready" ∧
    (process_job ⟨"gen-1", 7, 7, "spongebob", 3⟩ ⟨some ⟨some sampleDescription, none⟩, true, true⟩
        [⟨7, upload_s3_key 7, "spongebob", "ready", "gen-0"⟩]).status = "failed" := by
  refine ⟨?_, ?_, ?_⟩ <;> decide

/-- C3 counterexample: `update_job_status` filters on `job_id` alone; invoked
with target status "failed" on a record currently "ready" (differing from an
expected "running"), it rewrites the record instead of being a no-op. -/
theorem c3_counterexample : ¬ transition_is_compare_and_set := by
  intro h
  unfold transition_is_compare_and_set at h
  have hc := h [⟨"j1", "ready", none, 0, some 0⟩] "j1" "running" "failed" none 5
    ⟨"j1", "ready", none, 0, some 0⟩ (by decide) (by decide)
  exact absurd hc (by decide)

/-- C3 amended: `update_job_status` is keyed on `job_id` only — a no-op
exactly when no record carries that `job_id`; otherwise the first matching
record unconditionally receives the new status, whatever its current status. -/
theorem c3_update_unconditional (store : List QueueRec) (job_id status : String)
    (error : Option String) (now : Nat) :
    (findJob store job_id = none →
      update_job_status store job_id status error now = store) ∧
    ∀ r, findJob store job_id = some r →
      findJob (update_job_status store job_id status error now) job_id =
        some (applyStatusSet now status error r) := by
  induction store with
  | nil => exact ⟨fun _ => rfl, fun r hr => by simp [findJob] at hr⟩
  | cons a rest ih =>
    by_cases ha : a.job_id = job_id
    · constructor
      · intro hnone
        rw [findJob, List.find?_cons_of_pos _ (by simp [ha])] at hnone
        exact absurd hnone (by simp)
      · intro r hr
        rw [findJob, List.find?_cons_of_pos _ (by simp [ha])] at hr
        injection hr with hr
        subst hr
        unfold update_job_status
        rw [if_pos ha, findJob, List.find?_cons_of_pos _ (by simp [applyStatusSet, ha])]
    · constructor
      · intro hnone
        rw [findJob, List.find?_cons_of_neg _ (by simp [ha])] at hnone
        unfold update_job_status
        rw [if_neg ha, ih.1 hnone]
      · intro r hr
        rw [findJob, List.find?_cons_of_neg _ (by simp [ha])] at hr
        unfold update_job_status
        rw [if_neg ha, findJob, List.find?_cons_of_neg _ (by simp [ha])]
        exact ih.2 r hr

theorem c3_update_unconditional_witness :
    findJob (update_job_status [⟨"j1", "ready", none, 0, some 0⟩] "j1" "failed" none 5) "j1" =
      some (applyStatusSet 5 "failed" none ⟨"j1", "ready", none, 0, some 0⟩) :=
  (c3_update_unconditional [⟨"j1", "ready", none, 0, some 0⟩] "j1" "failed" none 5).2
    ⟨"j1", "ready", none, 0, some 0⟩ (by decide)

/-- C5 counterexample: a claimed job with a too-short catalog description and
`retry_count = 0` is re-queued by the failure handler, not marked failed —
refuting "transitions running→failed regardless of its current retry_count". -/
theorem c5_counterexample :
    (process_job ⟨"gen-2", 8, 8, "political", 0⟩ ⟨some ⟨none, some "short"⟩, true, true⟩
        []).status = "queued" ∧
    ¬ (process_job ⟨"gen-2", 8, 8, "political", 0⟩ ⟨some ⟨none, some "short"⟩, true, true⟩
        []).status = "failed" := by
  exact ⟨by decide, by decide⟩

/-- C5 amended: an empty or shorter-than-50-character description raises and
lands in the generic failure handler: the job is re-queued with
`retry_count + 1` while `retry_count < MAX_RETRIES`, and transitions to
failed only when the budget is exhausted; the reason is recorded either way. -/
theorem c5_short_description (job : ClaimedJob) (env : WorkerEnv) (videos : List VideoDoc)
    (doc : CatalogDoc) (hdoc : env.jobDoc = some doc)
    (hshort : catalogDescription doc = "" ∨ (catalogDescription doc).length < 50) :
    (job.retry_count < MAX_RETRIES →
      (process_job job env videos).status = "queued" ∧
      (process_job job env videos).retry_count = job.retry_count + 1) ∧
    (MAX_RETRIES ≤ job.retry_count →
      (process_job job env videos).status = "failed" ∧
      (process_job job env videos).retry_count = job.retry_count) ∧
    (process_job job env videos).error =
      some ("Job description too short (" ++
        toString (catalogDescription doc).length ++ " chars)") := by
  have hp : process_job job env videos =
      process_job_failure job
        ("Job description too short (" ++
          toString (catalogDescription doc).length ++ " chars)") videos := by
    unfold process_job
    rw [hdoc]
    dsimp only
    rw [if_pos hshort]
  rw [hp]
  unfold process_job_failure
  refine ⟨fun hlt => ?_, fun hge => ?_, ?_⟩
  · rw [if_pos hlt]
    exact ⟨rfl, rfl⟩
  · rw [if_neg (by omega)]
    exact ⟨rfl, rfl⟩
  · split <;> rfl

theorem c5_short_description_witness :
    (process_job ⟨"gen-2", 8, 8, "political", 0⟩ ⟨some ⟨none, some "short"⟩, true, true⟩
        []).status = "queued" ∧
    (process_job ⟨"gen-2", 8, 8, "political", 0⟩ ⟨some ⟨none, some "short"⟩, true, true⟩
        []).retry_count = 0 + 1 :=
  (c5_short_description ⟨"gen-2", 8, 8, "political", 0⟩
    ⟨some ⟨none, some "short"⟩, true, true⟩ [] ⟨none, some "short"⟩ rfl (by decide)).1
    (by decide)

/-- C4 counterexample: three claim/failure rounds exhaust the budget
(failed with retry_count 3); an operator retry re-queues at retry_count 4;
one more claim and failure marks the job failed with retry_count 4, strictly
above MAX_RETRIES — refuting `retry_count ≤ MAX_RETRIES` in `failed`. -/
theorem c4_counterexample :
    (runOps [.claimOp true, .failHandle, .claimOp true, .failHandle, .claimOp true,
      .failHandle, .claimOp true, .failHandle, .operatorRetry, .claimOp true,
      .failHandle]).status = "failed" ∧
    MAX_RETRIES <
      (runOps [.claimOp true, .failHandle, .claimOp true, .failHandle, .claimOp true,
        .failHandle, .claimOp true, .failHandle, .operatorRetry, .claimOp true,
        .failHandle]).retry_count := by
  exact ⟨by decide, by decide⟩

theorem queueStep_failed_invariant (s : JobState) (op : QueueOp)
    (h : s.status = "failed" → MAX_RETRIES ≤ s.retry_count) :
    (queueStep s op).status = "failed" → MAX_RETRIES ≤ (queueStep s op).retry_count := by
  cases op with
  | claimOp m =>
    dsimp only [queueStep]
    split
    · intro hf
      simp at hf
    · exact h
  | staleReset st =>
    dsimp only [queueStep]
    split
    · intro hf
      simp at hf
    · exact h
  | failHandle =>
    dsimp only [queueStep]
    split
    · intro hf
      simp at hf
    · intro _
      show MAX_RETRIES ≤ s.retry_count
      omega
  | operatorRetry =>
    dsimp only [queueStep]
    split
    · intro hf
      simp at hf
    · exact h

/-- C4 amended: over every sequence of claim, stale-lease reset, failure
handling and operator-retry operations, a job in `failed` has
`retry_count ≥ MAX_RETRIES` — the spec's bound holds with the inequality
reversed, and stale resets or operator retries can push the count above the
budget, never below it. -/
theorem c4_failed_retry_ge (ops : List QueueOp) :
    (runOps ops).status = "failed" → MAX_RETRIES ≤ (runOps ops).retry_count := by
  suffices h : ∀ s : JobState, (s.status = "failed" → MAX_RETRIES ≤ s.retry_count) →
      ((ops.foldl queueStep s).status = "failed" →
        MAX_RETRIES ≤ (ops.foldl queueStep s).retry_count) by
    exact h enqueuedState (fun hf => absurd hf (by decide))
  induction ops with
  | nil => exact fun s hs => hs
  | cons op rest ih =>
    exact fun s hs => ih (queueStep s op) (queueStep_failed_invariant s op hs)

theorem c4_failed_retry_ge_witness :
    MAX_RETRIES ≤ (runOps [.claimOp true, .failHandle, .claimOp true, .failHandle,
      .claimOp true, .failHandle, .claimOp true, .failHandle]).retry_count :=
  c4_failed_retry_ge _ (by decide)

/-! ## Lemmas about the query normalisation (for C9) -/

/-- Only ASCII letters change case, and uppercasing then lowercasing a letter
is the same as lowercasing it directly. -/
theorem toLower_toUpper (c : Char) : c.toUpper.toLower = c.toLower := by
  by_cases h : 97 ≤ c.toNat ∧ c.toNat ≤ 122
  · have h1 : c = Char.ofNat c.toNat := (Char.ofNat_toNat c).symm
    rw [h1]
    obtain ⟨ha, hb⟩ := h
    generalize c.toNat = n at ha hb
    interval_cases n <;> decide
  · have hu : c.toUpper = c := by
      unfold Char.toUpper
      rw [if_neg h]
    rw [hu]

theorem splitWsAux_ws_nil (w : List Char) (h : ∀ c ∈ w, c.isWhitespace) :
    splitWsAux w [] = [] := by
  induction w with
  | nil => rfl
  | cons c rest ih =>
    have hc : c.isWhitespace = true := h c (by simp)
    simp [splitWsAux, hc, ih (fun x hx => h x (by simp [hx]))]

theorem splitWsAux_ws_acc (w acc : List Char) (h : ∀ c ∈ w, c.isWhitespace) :
    splitWsAux w acc = splitWsAux [] acc := by
  cases w with
  | nil => rfl
  | cons c rest =>
    have hc : c.isWhitespace = true := h c (by simp)
    have hrest : splitWsAux rest [] = [] :=
      splitWsAux_ws_nil rest (fun x hx => h x (by simp [hx]))
    by_cases hacc : acc.isEmpty <;> simp [splitWsAux, hc, hacc, hrest]

theorem splitWsAux_append_ws (w l acc : List Char) (h : ∀ c ∈ w, c.isWhitespace) :
    splitWsAux (l ++ w) acc = splitWsAux l acc := by
  induction l generalizing acc with
  | nil => simpa using splitWsAux_ws_acc w acc h
  | cons c rest ih =>
    simp only [List.cons_append, splitWsAux]
    by_cases hc : c.isWhitespace <;> by_cases hacc : acc.isEmpty <;> simp [hc, hacc, ih]

/-- Trailing whitespace does not change `str.split()`. -/
theorem splitWs_append_ws (l w : List Char) (h : ∀ c ∈ w, c.isWhitespace) :
    splitWs (l ++ w) = splitWs l :=
  splitWsAux_append_ws w l [] h

/-- Leading whitespace does not change `str.split()`. -/
theorem splitWs_ws_front (w l : List Char) (h : ∀ c ∈ w, c.isWhitespace) :
    splitWs (w ++ l) = splitWs l := by
  induction w with
  | nil => rfl
  | cons c rest ih =>
    have hc : c.isWhitespace = true := h c (by simp)
    show splitWsAux (c :: (rest ++ l)) [] = _
    simp only [splitWsAux, hc, if_true, List.isEmpty_nil]
    exact ih (fun x hx => h x (by simp [hx]))

/-- Whitespace survives the alphanumeric-or-whitespace filter. -/
theorem filter_keepChar_ws (w : List Char) (h : ∀ c ∈ w, c.isWhitespace) :
    w.filter keepChar = w := by
  apply List.filter_eq_self.mpr
  intro c hc
  simp [keepChar, h c hc]

/-- `str.strip()` before the filter does not change the split word list:
splitting already discards boundary whitespace. -/
theorem splitWs_filter_strip (l : List Char) :
    splitWs ((stripChars l).filter keepChar) = splitWs (l.filter keepChar) := by
  have hws_pre : ∀ c ∈ l.takeWhile Char.isWhitespace, c.isWhitespace :=
    fun c hc => List.mem_takeWhile_imp hc
  have hws_suf : ∀ c ∈ ((l.dropWhile Char.isWhitespace).reverse.takeWhile
      Char.isWhitespace).reverse, c.isWhitespace := by
    intro c hc
    rw [List.mem_reverse] at hc
    exact List.mem_takeWhile_imp hc
  have hdecomp1 : l.takeWhile Char.isWhitespace ++ l.dropWhile Char.isWhitespace = l :=
    List.takeWhile_append_dropWhile Char.isWhitespace l
  have hdecomp2 : stripChars l ++ ((l.dropWhile Char.isWhitespace).reverse.takeWhile
      Char.isWhitespace).reverse = l.dropWhile Char.isWhitespace := by
    unfold stripChars
    rw [← List.reverse_append, List.takeWhile_append_dropWhile, List.reverse_reverse]
  calc splitWs ((stripChars l).filter keepChar)
      = splitWs ((stripChars l).filter keepChar ++
          ((l.dropWhile Char.isWhitespace).reverse.takeWhile Char.isWhitespace).reverse) :=
        (splitWs_append_ws _ _ hws_suf).symm
    _ = splitWs ((stripChars l ++ ((l.dropWhile Char.isWhitespace).reverse.takeWhile
          Char.isWhitespace).reverse).filter keepChar) := by
        rw [List.filter_append, filter_keepChar_ws _ hws_suf]
    _ = splitWs ((l.dropWhile Char.isWhitespace).filter keepChar) := by rw [hdecomp2]
    _ = splitWs (l.takeWhile Char.isWhitespace ++
          (l.dropWhile Char.isWhitespace).filter keepChar) :=
        (splitWs_ws_front _ _ hws_pre).symm
    _ = splitWs ((l.takeWhile Char.isWhitespace ++ l.dropWhile Char.isWhitespace).filter
          keepChar) := by
        rw [List.filter_append, filter_keepChar_ws _ hws_pre]
    _ = splitWs (l.filter keepChar) := by rw [hdecomp1]

/-- The canonical form is the sorted token list joined with spaces. -/
theorem canonical_query_eq_tokens (q : String) :
    canonical_query q = String.intercalate " " (sortStrings (queryTokens q)) := by
  unfold canonical_query queryTokens
  dsimp only
  rw [splitWs_filter_strip]

theorem lexLeB_total (as : List Char) : ∀ bs, lexLeB as bs = true ∨ lexLeB bs as = true := by
  induction as with
  | nil => exact fun bs => Or.inl rfl
  | cons a as ih =>
    intro bs
    cases bs with
    | nil => exact Or.inr rfl
    | cons b bs =>
      rcases lt_trichotomy a b with hab | hab | hab
      · left
        simp [lexLeB, hab]
      · subst hab
        rcases ih bs with h | h
        · left
          simp [lexLeB, lt_irrefl, h]
        · right
          simp [lexLeB, lt_irrefl, h]
      · right
        simp [lexLeB, hab]

theorem lexLeB_trans (as : List Char) :
    ∀ bs cs, lexLeB as bs = true → lexLeB bs cs = true → lexLeB as cs = true := by
  induction as with
  | nil => intros; rfl
  | cons a as ih =>
    intro bs cs h1 h2
    cases bs with
    | nil => simp [lexLeB] at h1
    | cons b bs =>
      cases cs with
      | nil => simp [lexLeB] at h2
      | cons c cs =>
        by_cases hab : a < b
        · by_cases hbc : b < c
          · simp [lexLeB, lt_trans hab hbc]
          · by_cases hcb : c < b
            · simp [lexLeB, hbc, hcb] at h2
            · have hbc' : b = c := le_antisymm (not_lt.mp hcb) (not_lt.mp hbc)
              subst hbc'
              simp [lexLeB, hab]
        · by_cases hba : b < a
          · simp [lexLeB, hab, hba] at h1
          · have hab' : a = b := le_antisymm (not_lt.mp hba) (not_lt.mp hab)
            subst hab'
            simp only [lexLeB, lt_irrefl, if_false] at h1
            by_cases hac : a < c
            · simp [lexLeB, hac]
            · by_cases hca : c < a
              · simp [lexLeB, hac, hca] at h2
              · have hac' : a = c := le_antisymm (not_lt.mp hca) (not_lt.mp hac)
                subst hac'
                simp only [lexLeB, lt_irrefl, if_false] at h2 ⊢
                exact ih bs cs h1 h2

theorem lexLeB_antisymm (as : List Char) :
    ∀ bs, lexLeB as bs = true → lexLeB bs as = true → as = bs := by
  induction as with
  | nil =>
    intro bs h1 h2
    cases bs with
    | nil => rfl
    | cons b bs => simp [lexLeB] at h2
  | cons a as ih =>
    intro bs h1 h2
    cases bs with
    | nil => simp [lexLeB] at h1
    | cons b bs =>
      by_cases hab : a < b
      · simp [lexLeB, hab, asymm hab] at h2
      · by_cases hba : b < a
        · simp [lexLeB, hab, hba] at h1
        · have hab' : a = b := le_antisymm (not_lt.mp hba) (not_lt.mp hab)
          subst hab'
          simp only [lexLeB, lt_irrefl, if_false] at h1 h2
          rw [ih bs h1 h2]

instance : IsTotal String strLe :=
  ⟨fun a b => lexLeB_total a.data b.data⟩

instance : IsTrans String strLe :=
  ⟨fun a b c h1 h2 => lexLeB_trans a.data b.data c.data h1 h2⟩

instance : IsAntisymm String strLe :=
  ⟨fun a b h1 h2 => by
    have hd : a.data = b.data := lexLeB_antisymm a.data b.data h1 h2
    cases a
    cases b
    exact congrArg String.mk hd⟩

/-- Python `sorted` output is determined by the multiset of inputs: sorting
two permuted lists gives the same list. -/
theorem sortStrings_congr_perm {l l' : List String} (h : l.Perm l') :
    sortStrings l = sortStrings l' := by
  unfold sortStrings
  exact List.eq_of_perm_of_sorted
    ((List.perm_insertionSort strLe l).trans (h.trans (List.perm_insertionSort strLe l').symm))
    (List.sorted_insertionSort strLe l) (List.sorted_insertionSort strLe l')

set_option maxRecDepth 1000000 in
/-- FIPS 180-4 test vector: the implementation hashes "abc" correctly. -/
theorem sha256_test_vector_abc :
    String.mk (sha256HexChars (strBytes "abc")) =
      "ba7816bf8f01cfea414140de5dae2223b00361a396177a9cb410ff61f20015ad" := by
  decide

set_option maxRecDepth 1000000 in
/-- Test vector: the SHA-256 of the empty message. -/
theorem sha256_test_vector_empty :
    String.mk (sha256HexChars (strBytes "")) =
      "e3b0c44298fc1c149afbf4c8996fb92427ae41e4649b934ca495991b7852b855" := by
  decide

theorem length_wordHexChars (w : Nat) : (wordHexChars w).length = 8 := by
  simp [wordHexChars]

theorem length_sha256HexChars (bs : List Nat) : (sha256HexChars bs).length = 64 := by
  unfold sha256HexChars Hash8.toList
  simp [List.flatMap, length_wordHexChars]

theorem canonical_map_toUpper (q : String) :
    canonical_query (String.mk (q.data.map Char.toUpper)) = canonical_query q := by
  have h : (String.mk (q.data.map Char.toUpper)).data.map Char.toLower =
      q.data.map Char.toLower := by
    show (q.data.map Char.toUpper).map Char.toLower = q.data.map Char.toLower
    rw [List.map_map]
    exact List.map_congr_left (fun x _ => toLower_toUpper x)
  unfold canonical_query
  rw [h]

theorem queryTokens_insert_punct (a b : List Char) (c : Char)
    (hc : keepChar c.toLower = false) :
    queryTokens (String.mk (a ++ c :: b)) = queryTokens (String.mk (a ++ b)) := by
  unfold queryTokens
  show splitWs (((a ++ c :: b).map Char.toLower).filter keepChar) =
    splitWs (((a ++ b).map Char.toLower).filter keepChar)
  simp [List.filter_append, List.filter_cons, hc]

/-- C9: `compute_query_fingerprint` always returns a 16-character string; the
three example queries share one fingerprint; and the fingerprint is invariant
under uppercasing, under inserting a code point that is neither alphanumeric
nor whitespace (after lowercasing), and under any permutation of the query's
token multiset. -/
theorem c9_fingerprint_contract :
    (∀ q : String, (compute_query_fingerprint q).length = 16) ∧
    (compute_query_fingerprint "Python developer" =
        compute_query_fingerprint "python, developer!" ∧
      compute_query_fingerprint "python, developer!" =
        compute_query_fingerprint "developer python") ∧
    (∀ q : String, compute_query_fingerprint (String.mk (q.data.map Char.toUpper)) =
      compute_query_fingerprint q) ∧
    (∀ (a b : List Char) (c : Char), keepChar c.toLower = false →
      compute_query_fingerprint (String.mk (a ++ c :: b)) =
        compute_query_fingerprint (String.mk (a ++ b))) ∧
    (∀ q1 q2 : String, (queryTokens q1).Perm (queryTokens q2) →
      compute_query_fingerprint q1 = compute_query_fingerprint q2) := by
  refine ⟨?_, ⟨?_, ?_⟩, ?_, ?_, ?_⟩
  · intro q
    unfold compute_query_fingerprint fingerprintOfCanonical
    show (List.take 16 (sha256HexChars (strBytes (canonical_query q)))).length = 16
    rw [List.length_take, length_sha256HexChars]
    decide
  · exact congrArg fingerprintOfCanonical (by decide)
  · exact congrArg fingerprintOfCanonical (by decide)
  · intro q
    exact congrArg fingerprintOfCanonical (canonical_map_toUpper q)
  · intro a b c hc
    refine congrArg fingerprintOfCanonical ?_
    rw [canonical_query_eq_tokens, canonical_query_eq_tokens,
      queryTokens_insert_punct a b c hc]
  · intro q1 q2 h
    refine congrArg fingerprintOfCanonical ?_
    rw [canonical_query_eq_tokens, canonical_query_eq_tokens, sortStrings_congr_perm h]

theorem c9_fingerprint_contract_witness :
    compute_query_fingerprint (String.mk (['a'] ++ ',' :: ['b'])) =
      compute_query_fingerprint (String.mk (['a'] ++ ['b'])) ∧
    compute_query_fingerprint "ab cd" = compute_query_fingerprint "cd ab" := by
  constructor
  · exact c9_fingerprint_contract.2.2.2.1 ['a'] ['b'] ',' (by decide)
  · refine c9_fingerprint_contract.2.2.2.2 "ab cd" "cd ab" ?_
    have h1 : queryTokens "ab cd" = ["ab", "cd"] := by decide
    have h2 : queryTokens "cd ab" = ["cd", "ab"] := by decide
    rw [h1, h2]
    exact List.Perm.swap "cd" "ab" []

end DeltaHacks
